import Mathlib

/-!
Shallow embedding of the dispatch/marshalling core of `fuse.py` (the fusepy
adapter between libfuse's C callback table and a high-level `Operations`
object).  Python integers are modelled as `Int`/`Nat`, byte strings as
`List Nat`, Python `None` as `Option.none`, exceptions as an explicit
outcome type, and the module-level mutable session state
(`FUSE.__critical_exception`, the native exit flag set by `fuse_exit`) as an
explicit record threaded through the envelope.  Python floats are modelled
as exact rationals.  The platform constants are the Linux/x86-64 ones used
by the source's own tables (`errno.EINVAL = 22`, `errno.EFAULT = 14`,
`errno.ERANGE = 34`, 32-bit `c_uid_t`/`c_gid_t`).
-/

namespace Fusepy

/-- Value of `errno.EINVAL` on the supported platforms. -/
def EINVAL : Int := 22

/-- Value of `errno.EFAULT` on the supported platforms. -/
def EFAULT : Int := 14

/-- Value of `errno.ERANGE` on the supported platforms. -/
def ERANGE : Int := 34

/-- Exceptions distinguished by `FUSE._wrapper` (fuse.py lines 847-887):
an `OSError` whose `errno` attribute is either an `int` (`some e`) or not an
`int` (`none`); any other ordinary `Exception`; and a `BaseException` that
is not an `Exception` (the critical-fault class). -/
inductive PyExc where
  | oserror (eno : Option Int)
  | ordinary
  | critical
deriving DecidableEq

/-- Outcome of calling a Python function: a returned value (`none` models
Python `None`) or a raised exception. -/
inductive PyOutcome (α : Type) where
  | ok (v : Option α)
  | raises (e : PyExc)
deriving DecidableEq

/-- Module/session-wide mutable state of the adapter:
`FUSE.__critical_exception` and whether `fuse_exit` has flagged the native
session as terminated (on OpenBSD via SIGTERM, elsewhere via
`_libfuse.fuse_exit`). -/
structure SessionState where
  critical_exception : Option PyExc
  fuse_exited : Bool
deriving DecidableEq

/-- Python `x or 0` applied to an `int`-or-`None` return value, as in
`return func(*args, **kwargs) or 0`: `None` and `0` both normalise to `0`. -/
def pyOrZero (v : Option Int) : Int :=
  match v with
  | none => 0
  | some n => if n = 0 then 0 else n

/-- FUSE._wrapper (fuse.py lines 847-887).  The call to the wrapped
adapter method is represented by its outcome.  For `init` there is no inner
`except OSError`/`except Exception`, so any exception reaches the outer
`except BaseException` handler; for every other operation an `OSError` with
an `int` errno `> 0` yields `-errno`, an `OSError` with a non-`int` or
non-positive errno yields `-EINVAL`, any other `Exception` yields `-EINVAL`,
and only a non-`Exception` `BaseException` reaches the outer handler, which
stores the exception in `__critical_exception`, calls `fuse_exit()` and
returns `-EFAULT`. -/
def FUSE_wrapper (isInit : Bool) (call : PyOutcome Int) (st : SessionState) :
    Int × SessionState :=
  match call with
  | .ok v => (pyOrZero v, st)
  | .raises e =>
    if isInit then
      (-EFAULT, { critical_exception := some e, fuse_exited := true })
    else
      match e with
      | .oserror (some eno) =>
          if 0 < eno then (-eno, st) else (-EINVAL, st)
      | .oserror none => (-EINVAL, st)
      | .ordinary => (-EINVAL, st)
      | .critical =>
          (-EFAULT, { critical_exception := some e, fuse_exited := true })

/-- Outcome of the tail of `FUSE.__init__` (fuse.py lines 832-836) after
`fuse_main_real` returned. -/
inductive MountOutcome where
  | normal
  | raisedCritical (e : PyExc)
  | runtimeError (err : Int)
deriving DecidableEq

/-- Tail of `FUSE.__init__`: re-raise the recorded critical exception if
any, otherwise raise `RuntimeError(err)` when the native loop's return
status is non-zero (Python truthiness of `err`). -/
def FUSE_finish (st : SessionState) (err : Int) : MountOutcome :=
  match st.critical_exception with
  | some e => .raisedCritical e
  | none => if err = 0 then .normal else .runtimeError err

/-- C1: for every dispatched operation other than `init`, an `OSError`
whose `errno` is an `int` `e > 0` makes the envelope return exactly `-e`;
an `OSError` with a non-positive `int` errno returns `-EINVAL`; an
`OSError` whose errno is not an `int` returns `-EINVAL`; and any other
ordinary exception returns `-EINVAL`. -/
theorem C1_error_translation (e : Int) (st : SessionState) :
    (0 < e →
      (FUSE_wrapper false (.raises (.oserror (some e))) st).1 = -e)
    ∧ (e ≤ 0 →
      (FUSE_wrapper false (.raises (.oserror (some e))) st).1 = -EINVAL)
    ∧ (FUSE_wrapper false (.raises (.oserror none)) st).1 = -EINVAL
    ∧ (FUSE_wrapper false (.raises .ordinary) st).1 = -EINVAL := by
  refine ⟨fun h => ?_, fun h => ?_, rfl, rfl⟩
  · simp [FUSE_wrapper, if_pos h]
  · simp [FUSE_wrapper, if_neg (not_lt.mpr h)]

/-- Witness for C1 at the concrete errno 7 and a fresh session state. -/
theorem C1_error_translation_witness :
    (FUSE_wrapper false (.raises (.oserror (some 7))) ⟨none, false⟩).1 = -7 :=
  (C1_error_translation 7 ⟨none, false⟩).1 (by norm_num)

/-- C2: a non-`Exception` `BaseException` escaping a dispatched call makes
the envelope record it as the session's critical failure, flag the native
session as terminated, and return `-EFAULT`; after the native loop exits,
`FUSE.__init__` re-raises the recorded critical exception when one exists,
raises `RuntimeError` when none exists and the native status is non-zero,
and returns normally otherwise. -/
theorem C2_critical_fault_path (b : Bool) (st : SessionState) (err : Int) :
    (FUSE_wrapper b (.raises .critical) st
        = (-EFAULT, ⟨some .critical, true⟩))
    ∧ (∀ e x, FUSE_finish ⟨some e, x⟩ err = .raisedCritical e)
    ∧ (err ≠ 0 → ∀ x, FUSE_finish ⟨none, x⟩ err = .runtimeError err)
    ∧ (err = 0 → ∀ x, FUSE_finish ⟨none, x⟩ err = .normal) := by
  refine ⟨?_, fun e x => rfl, fun h x => ?_, fun h x => ?_⟩
  · cases b <;> rfl
  · simp [FUSE_finish, h]
  · simp [FUSE_finish, h]

/-- Witness for C2 with a non-zero native status 5 and a clean state. -/
theorem C2_critical_fault_path_witness :
    FUSE_wrapper false (.raises .critical) ⟨none, false⟩
        = (-EFAULT, ⟨some .critical, true⟩)
    ∧ FUSE_finish ⟨none, false⟩ 5 = .runtimeError 5 :=
  ⟨(C2_critical_fault_path false ⟨none, false⟩ 5).1,
   (C2_critical_fault_path false ⟨none, false⟩ 5).2.2.1 (by norm_num) false⟩

/-- Relevant fields of the native `fuse_file_info` record: the numeric
`fh` field and the open `flags` (the further bit-flags such as `direct_io`
and `keep_cache` are never read by the adapter and are summarised by
`flags`-like opacity of the record itself). -/
structure FileInfo where
  fh : Nat
  flags : Int
deriving DecidableEq

/-- The third kind of handle argument the adapter hands to the high-level
implementation: the full native record (raw mode), only its numeric `fh`
field (numeric mode), or Python `None` when no native record is present. -/
inductive FhArg where
  | rawRec (fi : FileInfo)
  | numeric (fh : Nat)
  | noHandle
deriving DecidableEq

/-- The expression `fip.contents if self.raw_fi else fip.contents.fh`
shared by all file operations of the `FUSE` class. -/
def fileFh (raw_fi : Bool) (fi : FileInfo) : FhArg :=
  if raw_fi then .rawRec fi else .numeric fi.fh

/-- Handle argument built by `FUSE.read` (fuse.py line 961). -/
def read_fh (raw_fi : Bool) (fi : FileInfo) : FhArg :=
  if raw_fi then .rawRec fi else .numeric fi.fh

/-- Handle argument built by `FUSE.write` (line 976). -/
def write_fh (raw_fi : Bool) (fi : FileInfo) : FhArg :=
  if raw_fi then .rawRec fi else .numeric fi.fh

/-- Handle argument built by `FUSE.flush` (line 989). -/
def flush_fh (raw_fi : Bool) (fi : FileInfo) : FhArg :=
  if raw_fi then .rawRec fi else .numeric fi.fh

/-- Handle argument built by `FUSE.release` (line 993). -/
def release_fh (raw_fi : Bool) (fi : FileInfo) : FhArg :=
  if raw_fi then .rawRec fi else .numeric fi.fh

/-- Handle argument built by `FUSE.fsync` (line 997). -/
def fsync_fh (raw_fi : Bool) (fi : FileInfo) : FhArg :=
  if raw_fi then .rawRec fi else .numeric fi.fh

/-- Handle argument built by `FUSE.lock` (line 1117). -/
def lock_fh (raw_fi : Bool) (fi : FileInfo) : FhArg :=
  if raw_fi then .rawRec fi else .numeric fi.fh

/-- Handle argument built by `FUSE.ioctl` (line 1134). -/
def ioctl_fh (raw_fi : Bool) (fi : FileInfo) : FhArg :=
  if raw_fi then .rawRec fi else .numeric fi.fh

/-- Handle argument built by `FUSE.poll` (line 1138). -/
def poll_fh (raw_fi : Bool) (fi : FileInfo) : FhArg :=
  if raw_fi then .rawRec fi else .numeric fi.fh

/-- Handle argument built by `FUSE.write_buf` (line 1142). -/
def write_buf_fh (raw_fi : Bool) (fi : FileInfo) : FhArg :=
  if raw_fi then .rawRec fi else .numeric fi.fh

/-- Handle argument built by `FUSE.read_buf` (line 1146). -/
def read_buf_fh (raw_fi : Bool) (fi : FileInfo) : FhArg :=
  if raw_fi then .rawRec fi else .numeric fi.fh

/-- Handle argument built by `FUSE.flock` (line 1150). -/
def flock_fh (raw_fi : Bool) (fi : FileInfo) : FhArg :=
  if raw_fi then .rawRec fi else .numeric fi.fh

/-- Handle argument built by `FUSE.fallocate` (line 1154). -/
def fallocate_fh (raw_fi : Bool) (fi : FileInfo) : FhArg :=
  if raw_fi then .rawRec fi else .numeric fi.fh

/-- Handle argument built by `FUSE.readdir` (line 1055): the source
comments `Ignore raw_fi` and always passes `fip.contents.fh`. -/
def readdir_fh (_raw_fi : Bool) (fi : FileInfo) : FhArg :=
  .numeric fi.fh

/-- Handle argument built by `FUSE.releasedir` (line 1073): `Ignore
raw_fi`, always `fip.contents.fh`. -/
def releasedir_fh (_raw_fi : Bool) (fi : FileInfo) : FhArg :=
  .numeric fi.fh

/-- Handle argument built by `FUSE.fsyncdir` (line 1078): `Ignore raw_fi`,
always `fip.contents.fh`. -/
def fsyncdir_fh (_raw_fi : Bool) (fi : FileInfo) : FhArg :=
  .numeric fi.fh

/-- C6 counterexample: with `raw_fi = True` the directory operation
`releasedir` still passes only the numeric `fh` field (here 7) to the
high-level implementation, not the full native record, so the raw-handle
choice is not applied uniformly to every handle-bearing operation. -/
theorem C6_counterexample :
    releasedir_fh true ⟨7, 3⟩ = FhArg.numeric 7
    ∧ releasedir_fh true ⟨7, 3⟩ ≠ FhArg.rawRec ⟨7, 3⟩ := by
  exact ⟨rfl, by decide⟩

/-- C6 amended: the raw-versus-numeric choice fixed by `raw_fi` is applied
uniformly to every handle-bearing file operation (each passes the full
record in raw mode and only the numeric field otherwise), while the
directory operations `readdir`, `releasedir` and `fsyncdir` always pass
the numeric field, ignoring `raw_fi`. -/
theorem C6_handle_mode (raw_fi : Bool) (fi : FileInfo) :
    (read_fh raw_fi fi = fileFh raw_fi fi
      ∧ write_fh raw_fi fi = fileFh raw_fi fi
      ∧ flush_fh raw_fi fi = fileFh raw_fi fi
      ∧ release_fh raw_fi fi = fileFh raw_fi fi
      ∧ fsync_fh raw_fi fi = fileFh raw_fi fi
      ∧ lock_fh raw_fi fi = fileFh raw_fi fi
      ∧ ioctl_fh raw_fi fi = fileFh raw_fi fi
      ∧ poll_fh raw_fi fi = fileFh raw_fi fi
      ∧ write_buf_fh raw_fi fi = fileFh raw_fi fi
      ∧ read_buf_fh raw_fi fi = fileFh raw_fi fi
      ∧ flock_fh raw_fi fi = fileFh raw_fi fi
      ∧ fallocate_fh raw_fi fi = fileFh raw_fi fi)
    ∧ (raw_fi = true → fileFh raw_fi fi = .rawRec fi)
    ∧ (raw_fi = false → fileFh raw_fi fi = .numeric fi.fh)
    ∧ (readdir_fh raw_fi fi = .numeric fi.fh
      ∧ releasedir_fh raw_fi fi = .numeric fi.fh
      ∧ fsyncdir_fh raw_fi fi = .numeric fi.fh) := by
  refine ⟨⟨rfl, rfl, rfl, rfl, rfl, rfl, rfl, rfl, rfl, rfl, rfl, rfl⟩,
    fun h => ?_, fun h => ?_, rfl, rfl, rfl⟩
  · simp [fileFh, h]
  · simp [fileFh, h]

/-- Witness for C6 amended at `raw_fi = true`, `fi = ⟨7, 3⟩`. -/
theorem C6_handle_mode_witness :
    read_fh true ⟨7, 3⟩ = fileFh true ⟨7, 3⟩
    ∧ fileFh true ⟨7, 3⟩ = .rawRec ⟨7, 3⟩ :=
  ⟨(C6_handle_mode true ⟨7, 3⟩).1.1,
   (C6_handle_mode true ⟨7, 3⟩).2.1 rfl⟩

/-- Field names of the `fuse_operations` structure that are present up to
protocol minor version 2 (fuse.py lines 591-621), in source order. -/
def fuse_operations_base : List String :=
  ["getattr", "readlink", "getdir", "mknod", "mkdir", "unlink", "rmdir",
   "symlink", "rename", "link", "chmod", "chown", "truncate", "utime",
   "open", "read", "write", "statfs", "flush", "release", "fsync",
   "setxattr", "getxattr", "listxattr", "removexattr"]

/-- Field names of `fuse_operations` for a given detected protocol minor
version, mirroring the version-gated list extensions of fuse.py lines
622-678. -/
def fuse_operations_fields (minor : Nat) : List String :=
  fuse_operations_base
  ++ (if 3 ≤ minor then
        ["opendir", "readdir", "releasedir", "fsyncdir", "init", "destroy"]
      else [])
  ++ (if 5 ≤ minor then ["access", "create", "ftruncate", "fgetattr"] else [])
  ++ (if 6 ≤ minor then ["lock", "utimens", "bmap"] else [])
  ++ (if 8 ≤ minor then
        ["flag_nullpath_ok", "flag_nopath", "flag_utime_omit_ok",
         "flag_reserved", "ioctl"]
      else [])
  ++ (if 9 ≤ minor then
        ["poll", "write_buf", "read_buf", "flock", "fallocate"]
      else [])

/-- The name lookup redirection of `FUSE.__init__` (fuse.py lines 798-803):
`ftruncate` and `fgetattr` are checked for, and implemented in terms of,
their non-f-prefixed versions (`name[1:]` drops the leading character). -/
def check_name (n : String) : String :=
  if n = "ftruncate" || n = "fgetattr" then n.drop 1 else n

/-- A high-level `operations` object as seen by the construction loop: for
each attribute name either no attribute (`none`) or an attribute carrying
its `libfuse_ignore` marker (the `_nullable_dummy_function` decoration of
the default `Operations` methods). -/
structure OpsModel where
  methods : String → Option Bool

/-- The condition under which the construction loop installs a slot
(fuse.py lines 805-807): the attribute exists and is not marked
`libfuse_ignore`. -/
def opsDefines (ops : OpsModel) (n : String) : Bool :=
  match ops.methods n with
  | some ignore => !ignore
  | none => false

/-- The set of `fuse_operations` slots filled in by the construction loop
of `FUSE.__init__` (fuse.py lines 794-815), as the sublist of field names
that survive the `continue` test. -/
def dispatchInstalled (minor : Nat) (ops : OpsModel) : List String :=
  (fuse_operations_fields minor).filter (fun n => opsDefines ops (check_name n))

/-- FUSE.ftruncate (fuse.py lines 1099-1101): the high-level operation
invoked and the handle argument passed, together with the optional path
and the length. -/
def FUSE_ftruncate (raw_fi : Bool) (path : Option String) (length : Int)
    (fi : FileInfo) : String × Option String × Int × FhArg :=
  ("truncate", path, length, fileFh raw_fi fi)

/-- FUSE.fgetattr (fuse.py lines 1103-1114): when the native record
pointer is null (`fi = none`) the handle argument is Python `None`,
otherwise it is selected by `raw_fi`; the high-level operation invoked is
`getattr`. -/
def FUSE_fgetattr (raw_fi : Bool) (path : Option String)
    (fi : Option FileInfo) : String × Option String × FhArg :=
  ("getattr", path,
    match fi with
    | some f => fileFh raw_fi f
    | none => .noHandle)

/-- FUSE.getattr (fuse.py lines 897-898) forwards to `FUSE.fgetattr` with
a null record pointer. -/
def FUSE_getattr (raw_fi : Bool) (path : Option String) :
    String × Option String × FhArg :=
  FUSE_fgetattr raw_fi path none

/-- C3: a recognized `fuse_operations` slot is installed iff the
high-level implementation defines the corresponding operation, where
`ftruncate`/`fgetattr` check for `truncate`/`getattr` and ignorable dummy
methods count as not defined; the two handle-bearing variants dispatch to
`truncate` and `getattr`, passing the handle selected by `raw_fi` when the
native record is present and Python `None` when it is absent. -/
theorem C3_dispatch_table (minor : Nat) (ops : OpsModel) (n : String)
    (hn : n ∈ fuse_operations_fields minor) :
    (n ∈ dispatchInstalled minor ops ↔ opsDefines ops (check_name n) = true)
    ∧ check_name "ftruncate" = "truncate"
    ∧ check_name "fgetattr" = "getattr"
    ∧ (∀ raw_fi path length fi,
        (FUSE_ftruncate raw_fi path length fi).1 = "truncate"
        ∧ (FUSE_ftruncate raw_fi path length fi).2.2.2 = fileFh raw_fi fi)
    ∧ (∀ raw_fi path fi,
        (FUSE_fgetattr raw_fi path (some fi)).1 = "getattr"
        ∧ (FUSE_fgetattr raw_fi path (some fi)).2.2 = fileFh raw_fi fi)
    ∧ (∀ raw_fi path,
        FUSE_getattr raw_fi path = ("getattr", path, FhArg.noHandle)) := by
  refine ⟨?_, rfl, rfl, fun raw_fi path length fi => ⟨rfl, rfl⟩,
    fun raw_fi path fi => ⟨rfl, rfl⟩, fun raw_fi path => rfl⟩
  simp [dispatchInstalled, List.mem_filter, hn]

/-- Witness for C3: with minor version 9 and an implementation defining a
real `truncate` (and an ignorable dummy `getattr`), the `ftruncate` slot
is installed and the `fgetattr` slot is not. -/
theorem C3_dispatch_table_witness :
    "ftruncate" ∈ dispatchInstalled 9
        ⟨fun n => if n = "truncate" then some false
                  else if n = "getattr" then some true else none⟩
    ∧ ¬ ("fgetattr" ∈ dispatchInstalled 9
        ⟨fun n => if n = "truncate" then some false
                  else if n = "getattr" then some true else none⟩) := by
  constructor
  · exact (C3_dispatch_table 9
      ⟨fun n => if n = "truncate" then some false
                else if n = "getattr" then some true else none⟩
      "ftruncate" (by decide)).1.mpr (by decide)
  · intro hmem
    exact absurd ((C3_dispatch_table 9
      ⟨fun n => if n = "truncate" then some false
                else if n = "getattr" then some true else none⟩
      "fgetattr" (by decide)).1.mp hmem) (by decide)

/-- FUSE.getxattr (fuse.py lines 1005-1022), given the byte string `res`
returned by the high-level operation, whether the output pointer `value`
is null, and the declared capacity `size`.  The result is the integer
return value together with the bytes copied into the output buffer. -/
def FUSE_getxattr (res : List Nat) (bufNull : Bool) (size : Nat) :
    Int × List Nat :=
  let retsize := res.length
  if bufNull then ((retsize : Int), [])
  else if size < retsize then (-ERANGE, [])
  else ((retsize : Int), res)

/-- The encoding step of `FUSE.listxattr` (fuse.py lines 1025-1028): the
already-encoded attribute names are joined with NUL and, when the joined
blob is non-empty, a trailing NUL is appended.  A falsy high-level result
(`None` or an empty list) is the empty list. -/
def listxattrEncode (attrs : List (List Nat)) : List Nat :=
  let ret := List.intercalate [0] attrs
  if 0 < ret.length then ret ++ [0] else ret

/-- FUSE.listxattr (fuse.py lines 1024-1042): encode, then the same
size-query / no-truncation negotiation as `FUSE.getxattr`. -/
def FUSE_listxattr (attrs : List (List Nat)) (bufNull : Bool) (size : Nat) :
    Int × List Nat :=
  let ret := listxattrEncode attrs
  let retsize := ret.length
  if bufNull then ((retsize : Int), [])
  else if size < retsize then (-ERANGE, [])
  else ((retsize : Int), ret)

/-- C4: for `getxattr` and `listxattr`, a null output pointer returns the
full encoded result's byte length with no bytes written; a non-null buffer
whose capacity is below the result length returns `-ERANGE` with no bytes
written; and sufficient capacity copies the result in full and returns the
exact byte count. -/
theorem C4_xattr_negotiation (res : List Nat) (attrs : List (List Nat))
    (size : Nat) :
    FUSE_getxattr res true size = ((res.length : Int), [])
    ∧ (size < res.length → FUSE_getxattr res false size = (-ERANGE, []))
    ∧ (res.length ≤ size →
        FUSE_getxattr res false size = ((res.length : Int), res))
    ∧ FUSE_listxattr attrs true size
        = (((listxattrEncode attrs).length : Int), [])
    ∧ ((listxattrEncode attrs).length > size →
        FUSE_listxattr attrs false size = (-ERANGE, []))
    ∧ ((listxattrEncode attrs).length ≤ size →
        FUSE_listxattr attrs false size
          = (((listxattrEncode attrs).length : Int), listxattrEncode attrs)) := by
  refine ⟨rfl, fun h => ?_, fun h => ?_, rfl, fun h => ?_, fun h => ?_⟩
  · simp [FUSE_getxattr, h]
  · simp [FUSE_getxattr, Nat.not_lt.mpr h]
  · simp [FUSE_listxattr, h]
  · simp [FUSE_listxattr, Nat.not_lt.mpr h]

/-- Witness for C4: a 3-byte value against capacity 2 gives `-ERANGE` and
no write; the two names `a`, `bc` encode to `a NUL bc NUL` and fit into
capacity 5. -/
theorem C4_xattr_negotiation_witness :
    FUSE_getxattr [1, 2, 3] false 2 = (-ERANGE, [])
    ∧ FUSE_listxattr [[97], [98, 99]] false 5
        = (5, [97, 0, 98, 99, 0]) := by
  refine ⟨(C4_xattr_negotiation [1, 2, 3] [] 2).2.1 (by norm_num), ?_⟩
  have h := (C4_xattr_negotiation [1, 2, 3] [[97], [98, 99]] 5).2.2.2.2.2
    (by decide)
  exact h.trans (by decide)

/-- Python slicing `l[:stop]` for an integer `stop`, as used by
`FUSE.readlink`: a non-negative stop keeps at most `stop` leading
elements, a negative stop drops `|stop|` trailing elements. -/
def pySliceTo (l : List Nat) (stop : Int) : List Nat :=
  if 0 ≤ stop then l.take stop.toNat
  else l.take (l.length - stop.natAbs)

/-- FUSE.readlink (fuse.py lines 900-907), given the encoded result bytes
`res` and the caller buffer capacity `bufsize`: the slice `res[:bufsize-1]`
is NUL-terminated by `create_string_buffer` and copied in full; the return
value is always 0. -/
def FUSE_readlink (res : List Nat) (bufsize : Nat) : Int × List Nat :=
  (0, pySliceTo res ((bufsize : Int) - 1) ++ [0])

/-- C8 counterexample: with capacity `b = 0` and a 2-byte result, the
claim bounds the copied data by `b - 1 = -1` bytes plus one terminator,
i.e. at most 0 bytes in total, but the code's Python slice `res[:-1]`
keeps 1 data byte and the copy writes 2 bytes. -/
theorem C8_counterexample :
    (FUSE_readlink [65, 66] 0).2 = [65, 0]
    ∧ ¬ (((FUSE_readlink [65, 66] 0).2.length : Int) ≤ ((0 : Int) - 1) + 1) := by
  exact ⟨rfl, by decide⟩

/-- C8 amended: for every capacity `b ≥ 1` the result is truncated to its
first `b - 1` bytes, copied with a NUL terminator, and the return value is
0; the return value is 0 for every capacity (readlink never returns
`-ERANGE`).  For `b = 0` the Python slice `res[:-1]` instead drops only
the final byte of the result. -/
theorem C8_readlink_truncation (res : List Nat) (b : Nat) (hb : 1 ≤ b) :
    (FUSE_readlink res b).1 = 0
    ∧ (FUSE_readlink res b).2 = res.take (b - 1) ++ [0]
    ∧ (res.take (b - 1)).length ≤ b - 1
    ∧ (∀ b' : Nat, (FUSE_readlink res b').1 = 0
        ∧ (FUSE_readlink res b').1 ≠ -ERANGE) := by
  refine ⟨rfl, ?_, ?_, fun b' => ⟨rfl, by norm_num [FUSE_readlink, ERANGE]⟩⟩
  · have h0 : (0 : Int) ≤ (b : Int) - 1 := by
      have : (1 : Int) ≤ (b : Int) := by exact_mod_cast hb
      omega
    have ht : ((b : Int) - 1).toNat = b - 1 := by omega
    simp [FUSE_readlink, pySliceTo, h0, ht]
  · exact List.length_take_le (b - 1) res

/-- Witness for C8 amended: a 3-byte target against capacity 3 keeps 2
bytes plus the terminator. -/
theorem C8_readlink_truncation_witness :
    (FUSE_readlink [10, 20, 30] 3).2 = [10, 20, 0] := by
  have h := (C8_readlink_truncation [10, 20, 30] 3 (by norm_num)).2.1
  simpa using h

/-- The copy `ctypes.string_at(buf, size)` taken by `FUSE.write` before
invoking the high-level operation: exactly `size` leading bytes of the
kernel buffer. -/
def pyStringAt (buf : List Nat) (size : Nat) : List Nat :=
  buf.take size

/-- FUSE.write (fuse.py lines 974-977): the data is copied out of the
kernel buffer, the handle argument selected by `raw_fi`, and the outcome
of the high-level `write` operation is returned unchanged — there is no
check against `size` on the returned count. -/
def FUSE_write (op : List Nat → Int → FhArg → PyOutcome Int)
    (raw_fi : Bool) (buf : List Nat) (size : Nat) (offset : Int)
    (fi : FileInfo) : PyOutcome Int :=
  op (pyStringAt buf size) offset (fileFh raw_fi fi)

/-- C5 counterexample: a `write` dispatched with `size = 100` whose
handler returns the count 150 is not rejected: the envelope returns 150 to
the kernel, records no critical failure and does not terminate the
session, although 150 exceeds 100. -/
theorem C5_counterexample :
    FUSE_wrapper false
      (FUSE_write (fun _ _ _ => .ok (some 150)) false
        (List.replicate 100 7) 100 0 ⟨1, 0⟩)
      ⟨none, false⟩
      = (150, ⟨none, false⟩)
    ∧ (100 : Int) < 150
    ∧ (150 : Int) ≠ -EFAULT := by
  exact ⟨rfl, by norm_num, by decide⟩

/-- C5 amended: the written-byte count returned by the high-level `write`
operation is passed through the envelope to the kernel unchanged, with no
size check — even when it exceeds the declared size (the length assertion
of the source exists only in `read`). -/
theorem C5_write_passthrough
    (op : List Nat → Int → FhArg → PyOutcome Int) (raw_fi : Bool)
    (buf : List Nat) (size : Nat) (offset : Int) (fi : FileInfo)
    (st : SessionState) (n : Int)
    (h : op (pyStringAt buf size) offset (fileFh raw_fi fi) = .ok (some n))
    (hn : n ≠ 0) :
    FUSE_wrapper false (FUSE_write op raw_fi buf size offset fi) st
      = (n, st) := by
  simp [FUSE_wrapper, FUSE_write, h, pyOrZero, hn]

/-- Witness for C5 amended: the concrete over-long count 150 against
`size = 100` is returned unchanged. -/
theorem C5_write_passthrough_witness :
    FUSE_wrapper false
      (FUSE_write (fun _ _ _ => .ok (some 150)) false
        (List.replicate 100 7) 100 0 ⟨1, 0⟩)
      ⟨none, false⟩
      = (150, ⟨none, false⟩) :=
  C5_write_passthrough (fun _ _ _ => .ok (some 150)) false
    (List.replicate 100 7) 100 0 ⟨1, 0⟩ ⟨none, false⟩ 150 rfl (by norm_num)

/-- The overflow fix-up `FUSE.chown` applies to its uid argument
(fuse.py lines 941-943): when `c_uid_t(uid + 1)` truncates to 0 the value
passed on is `-1`, otherwise the value itself.  `c_uid_t` is a 32-bit
unsigned type on every platform table in the source. -/
def chown_fix_uid (uid : Int) : Int :=
  if (uid + 1) % 2 ^ 32 = 0 then -1 else uid

/-- The same fix-up for the gid argument (fuse.py lines 944-945). -/
def chown_fix_gid (gid : Int) : Int :=
  if (gid + 1) % 2 ^ 32 = 0 then -1 else gid

/-- FUSE.chown (fuse.py lines 940-947): the decoded path and the fixed-up
uid and gid passed to the high-level `chown` operation. -/
def FUSE_chown (path : String) (uid gid : Int) : String × Int × Int :=
  (path, chown_fix_uid uid, chown_fix_gid gid)

/-- C10: for a native uid/gid in the 32-bit unsigned range, the value
`2^32 - 1` — the unsigned-overflow representation of `-1`, the one whose
successor wraps to 0 — is passed to the high-level `chown` as `-1`, and
every other value is passed through unchanged. -/
theorem C10_chown_overflow (p : String) (uid gid : Int)
    (hu0 : 0 ≤ uid) (hu1 : uid < 2 ^ 32) (hg0 : 0 ≤ gid)
    (hg1 : gid < 2 ^ 32) :
    (uid = 2 ^ 32 - 1 → (FUSE_chown p uid gid).2.1 = -1)
    ∧ (uid ≠ 2 ^ 32 - 1 → (FUSE_chown p uid gid).2.1 = uid)
    ∧ (gid = 2 ^ 32 - 1 → (FUSE_chown p uid gid).2.2 = -1)
    ∧ (gid ≠ 2 ^ 32 - 1 → (FUSE_chown p uid gid).2.2 = gid) := by
  refine ⟨fun h => ?_, fun h => ?_, fun h => ?_, fun h => ?_⟩
  · subst h
    show chown_fix_uid (2 ^ 32 - 1) = -1
    unfold chown_fix_uid
    rw [if_pos (by norm_num)]
  · have hne : ¬ ((uid + 1) % 2 ^ 32 = 0) := by omega
    show chown_fix_uid uid = uid
    unfold chown_fix_uid
    rw [if_neg hne]
  · subst h
    show chown_fix_gid (2 ^ 32 - 1) = -1
    unfold chown_fix_gid
    rw [if_pos (by norm_num)]
  · have hne : ¬ ((gid + 1) % 2 ^ 32 = 0) := by omega
    show chown_fix_gid gid = gid
    unfold chown_fix_gid
    rw [if_neg hne]

/-- Witness for C10: uid `4294967295` becomes `-1` while gid `5` is passed
through. -/
theorem C10_chown_overflow_witness :
    (FUSE_chown "p" 4294967295 5).2.1 = -1
    ∧ (FUSE_chown "p" 4294967295 5).2.2 = 5 :=
  ⟨(C10_chown_overflow "p" 4294967295 5 (by norm_num) (by norm_num)
      (by norm_num) (by norm_num)).1 (by norm_num),
   (C10_chown_overflow "p" 4294967295 5 (by norm_num) (by norm_num)
      (by norm_num) (by norm_num)).2.2.2 (by norm_num)⟩

/-- Python `int(x)` on a number: truncation toward zero. -/
def pyInt (q : ℚ) : Int :=
  if 0 ≤ q then ⌊q⌋ else ⌈q⌉

/-- A native `c_timespec` record (`tv_sec`, `tv_nsec`). -/
structure Timespec where
  tv_sec : Int
  tv_nsec : Int
deriving DecidableEq

/-- The assignment `set_st_attrs` performs on a time-pair sub-structure
(fuse.py lines 703-707): with the nanosecond representation,
`divmod(int(val), 10 ** 9)`; with the floating-point representation,
`tv_sec = int(val)` and `tv_nsec = int((val - tv_sec) * 1E9)`.  Python's
`divmod` is floor division, hence `Int.fdiv`/`Int.fmod`. -/
def encodeTimespec (use_ns : Bool) (val : ℚ) : Timespec :=
  if use_ns then
    ⟨(pyInt val).fdiv (10 ^ 9), (pyInt val).fmod (10 ^ 9)⟩
  else
    ⟨pyInt val, pyInt ((val - (pyInt val : ℚ)) * 10 ^ 9)⟩

/-- time_of_timespec (fuse.py lines 690-694): `tv_sec * 10 ** 9 + tv_nsec`
with the nanosecond representation, `tv_sec + tv_nsec / 1E9` otherwise.
Both results are read as exact rationals. -/
def time_of_timespec (ts : Timespec) (use_ns : Bool) : ℚ :=
  if use_ns then ((ts.tv_sec * 10 ^ 9 + ts.tv_nsec : Int) : ℚ)
  else (ts.tv_sec : ℚ) + (ts.tv_nsec : ℚ) / 10 ^ 9

/-- The native `c_stat` record of the Linux/x86-64 table (fuse.py lines
249-263): the three time-pair sub-structures plus the flat integer fields,
kept as a name-keyed association list. -/
structure CStat where
  st_atimespec : Timespec
  st_mtimespec : Timespec
  st_ctimespec : Timespec
  intFields : List (String × ℚ)
deriving DecidableEq

/-- The key set tested by `set_st_attrs` for time handling (fuse.py line
698). -/
def timeKeys : List String :=
  ["st_atime", "st_mtime", "st_ctime", "st_birthtime"]

/-- Dispatch of `getattr(st, key + 'spec', None)` followed by the
time-pair assignment: on the Linux layout `st_birthtimespec` does not
exist, so that key is skipped (`continue`). -/
def setTimeField (st : CStat) (key : String) (use_ns : Bool) (val : ℚ) :
    CStat :=
  if key = "st_atime" then { st with st_atimespec := encodeTimespec use_ns val }
  else if key = "st_mtime" then
    { st with st_mtimespec := encodeTimespec use_ns val }
  else if key = "st_ctime" then
    { st with st_ctimespec := encodeTimespec use_ns val }
  else st

/-- Assignment to a flat record field by name. -/
def assocSet (l : List (String × ℚ)) (k : String) (v : ℚ) :
    List (String × ℚ) :=
  l.map (fun p => if p.1 = k then (k, v) else p)

/-- set_st_attrs (fuse.py lines 696-709): iterate the attribute map in
order; time keys go to their time-pair sub-structure (skipped when the
layout lacks it), other keys are assigned when the record has the field
(`getattr(st, key, None) is not None`) and silently dropped otherwise. -/
def set_st_attrs (st : CStat) (attrs : List (String × ℚ)) (use_ns : Bool) :
    CStat :=
  attrs.foldl
    (fun s kv =>
      if kv.1 ∈ timeKeys then setTimeField s kv.1 use_ns kv.2
      else if (s.intFields.lookup kv.1).isSome then
        { s with intFields := assocSet s.intFields kv.1 kv.2 }
      else s)
    st

/-- Truncation toward zero is the identity on integers. -/
theorem pyInt_intCast (v : Int) : pyInt (v : ℚ) = v := by
  unfold pyInt
  split
  · exact Int.floor_intCast v
  · exact Int.ceil_intCast v

/-- Truncation toward zero moves a rational by strictly less than 1. -/
theorem abs_sub_pyInt_lt_one (x : ℚ) : |x - (pyInt x : ℚ)| < 1 := by
  unfold pyInt
  split
  case isTrue h =>
    have h1 : ((⌊x⌋ : ℚ)) ≤ x := Int.floor_le x
    have h2 : x < ⌊x⌋ + 1 := Int.lt_floor_add_one x
    rw [abs_of_nonneg (by linarith)]
    linarith
  case isFalse h =>
    have h1 : x ≤ (⌈x⌉ : ℚ) := Int.le_ceil x
    have h2 : ((⌈x⌉ : ℚ)) < x + 1 := Int.ceil_lt_add_one x
    rw [abs_of_nonpos (by linarith)]
    linarith

/-- C9: encoding an integer nanosecond value with the nanosecond
representation and decoding the timespec back is the identity; with the
floating-point-seconds representation (modelled as exact rationals) the
round trip moves the value by less than a nanosecond, hence well within
sub-microsecond tolerance; and the encoding used is exactly the one
`set_st_attrs` applies to the `st_atime`/`st_mtime` fields `utimens`
consumes. -/
theorem C9_time_roundtrip :
    (∀ v : Int, time_of_timespec (encodeTimespec true (v : ℚ)) true = (v : ℚ))
    ∧ (∀ q : ℚ,
        |time_of_timespec (encodeTimespec false q) false - q| < 1 / 1000000)
    ∧ (∀ st q b,
        (set_st_attrs st [("st_atime", q)] b).st_atimespec
            = encodeTimespec b q
        ∧ (set_st_attrs st [("st_mtime", q)] b).st_mtimespec
            = encodeTimespec b q) := by
  refine ⟨fun v => ?_, fun q => ?_, fun st q b => ⟨rfl, rfl⟩⟩
  · have hv : Int.fdiv v (10 ^ 9) * 10 ^ 9 + Int.fmod v (10 ^ 9) = v := by
      have := Int.fdiv_add_fmod v (10 ^ 9)
      linarith
    simp only [encodeTimespec, time_of_timespec, if_pos, pyInt_intCast]
    exact_mod_cast hv
  · have key : |(q - (pyInt q : ℚ)) * 10 ^ 9
        - (pyInt ((q - (pyInt q : ℚ)) * 10 ^ 9) : ℚ)| < 1 :=
      abs_sub_pyInt_lt_one ((q - (pyInt q : ℚ)) * 10 ^ 9)
    have h9 : (0 : ℚ) < 10 ^ 9 := by norm_num
    have hrw : time_of_timespec (encodeTimespec false q) false - q
        = ((pyInt ((q - (pyInt q : ℚ)) * 10 ^ 9) : ℚ)
            - (q - (pyInt q : ℚ)) * 10 ^ 9) / 10 ^ 9 := by
      simp only [encodeTimespec, time_of_timespec, if_neg, Bool.false_eq_true,
        reduceIte]
      field_simp
      ring
    rw [hrw, abs_div, abs_of_pos h9, abs_sub_comm]
    calc |(q - (pyInt q : ℚ)) * 10 ^ 9
            - (pyInt ((q - (pyInt q : ℚ)) * 10 ^ 9) : ℚ)| / 10 ^ 9
        < 1 / 10 ^ 9 := by gcongr
      _ < 1 / 1000000 := by norm_num

/-- A directory entry produced by the high-level `readdir`: either a bare
name or a `(name, attrs, offset)` triple whose attrs may be `None`
(`none`) or a possibly empty attribute map. -/
inductive DirEntry where
  | bare (name : String)
  | full (name : String) (attrs : Option (List (String × ℚ))) (off : Int)
deriving DecidableEq

/-- A freshly constructed, zero-initialised `c_stat()` on the Linux
x86-64 layout. -/
def c_stat_zero : CStat :=
  ⟨⟨0, 0⟩, ⟨0, 0⟩, ⟨0, 0⟩,
   [("st_dev", 0), ("st_ino", 0), ("st_nlink", 0), ("st_mode", 0),
    ("st_uid", 0), ("st_gid", 0), ("st_rdev", 0), ("st_size", 0),
    ("st_blksize", 0), ("st_blocks", 0)]⟩

/-- The per-item preprocessing of `FUSE.readdir` (fuse.py lines
1056-1064): a bare string becomes `(name, None, 0)`; a triple keeps its
name and offset, and its attrs populate a fresh `c_stat` unless they are
falsy (`None` or an empty map). -/
def procEntry (use_ns : Bool) (e : DirEntry) :
    String × Option CStat × Int :=
  match e with
  | .bare name => (name, none, 0)
  | .full name attrs off =>
    match attrs with
    | none => (name, none, off)
    | some a =>
      if a = [] then (name, none, off)
      else (name, some (set_st_attrs c_stat_zero a use_ns), off)

/-- The filler loop of `FUSE.readdir` (fuse.py lines 1055-1069): each
preprocessed entry is passed to the kernel-supplied filler; a non-zero
filler return breaks the loop; the callback then returns 0.  The result
records the arguments of every filler invocation together with the
returned status. -/
def readdirRun (use_ns : Bool)
    (filler : String → Option CStat → Int → Int) :
    List DirEntry → List (String × Option CStat × Int) × Int
  | [] => ([], 0)
  | e :: rest =>
    let t := procEntry use_ns e
    if filler t.1 t.2.1 t.2.2 ≠ 0 then ([t], 0)
    else
      let r := readdirRun use_ns filler rest
      (t :: r.1, r.2)

/-- C7: when the filler returns 0 on every entry of `pre` and non-zero on
`e`, exactly the entries of `pre ++ [e]` are delivered to the filler — the
entries of `post` are never passed — and the callback returns 0; moreover
the callback returns 0 on every entry sequence. -/
theorem C7_readdir_early_termination (b : Bool)
    (filler : String → Option CStat → Int → Int) :
    (∀ pre e post,
      (∀ t ∈ pre.map (procEntry b), filler t.1 t.2.1 t.2.2 = 0) →
      filler (procEntry b e).1 (procEntry b e).2.1 (procEntry b e).2.2 ≠ 0 →
      readdirRun b filler (pre ++ e :: post)
        = ((pre ++ [e]).map (procEntry b), 0))
    ∧ (∀ items, (readdirRun b filler items).2 = 0) := by
  constructor
  · intro pre
    induction pre with
    | nil =>
      intro e post hpre he
      simp [readdirRun, he]
    | cons a rest ih =>
      intro e post hpre he
      have ha : filler (procEntry b a).1 (procEntry b a).2.1
          (procEntry b a).2.2 = 0 := hpre _ (by simp)
      have hrec := ih e post (fun t ht => hpre t (by simp [ht])) he
      simp [readdirRun, ha, hrec]
  · intro items
    induction items with
    | nil => rfl
    | cons a rest ih =>
      by_cases h : filler (procEntry b a).1 (procEntry b a).2.1
          (procEntry b a).2.2 = 0
      · simp [readdirRun, h, ih]
      · simp [readdirRun, h]

/-- Witness for C7: five bare entries with a filler saturating on the
third name deliver exactly three entries and still return 0. -/
theorem C7_readdir_early_termination_witness :
    readdirRun false (fun n _ _ => if n = "c" then 1 else 0)
      [DirEntry.bare "a", DirEntry.bare "b", DirEntry.bare "c",
       DirEntry.bare "d", DirEntry.bare "e"]
      = ([("a", none, 0), ("b", none, 0), ("c", none, 0)], 0) := by
  have h := (C7_readdir_early_termination false
      (fun n _ _ => if n = "c" then 1 else 0)).1
      [DirEntry.bare "a", DirEntry.bare "b"] (DirEntry.bare "c")
      [DirEntry.bare "d", DirEntry.bare "e"] (by decide) (by decide)
  exact h.trans (by decide)

end Fusepy
